import Mathlib

/-!
Shallow embedding of `src/langchain_tensorlake/tensorlake_tool.py`:
the `document_to_markdown_converter` adapter (credential check, upload,
`ParsingOptions` construction, extraction-options attachment, job
submission, and the status-polling loop) and its async wrapper.

The remote Tensorlake collaborator (`DocumentAI`) is modelled as an
oracle (`Behavior`) giving, for each call, either a returned value or a
raised exception.  Python exceptions are `PyErr` values; a raising
computation is an `Except PyErr` value, and the adapter's `try/except
Exception` is the surrounding `match`.  Wall-clock time is idealised:
`time.time() - start_time` equals 5 time-units per executed
`time.sleep(5)`, and every other operation takes zero time.  Every
collaborator interaction is recorded in a `Call` trace so that claims
about "no upload call" / "call count zero" are statable.
-/

deriving instance DecidableEq for Except

namespace Tensorlake

/-- `tensorlake.documentai.parse.ChunkingStrategy`. -/
inductive ChunkingStrategy where
  | NONE | PAGE | SECTION_HEADER
deriving DecidableEq

/-- `tensorlake.documentai.parse.TableParsingStrategy`. -/
inductive TableParsingStrategy where
  | TSR | VLM
deriving DecidableEq

/-- `tensorlake.documentai.parse.TableOutputMode`. -/
inductive TableOutputMode where
  | JSON | MARKDOWN | HTML
deriving DecidableEq

/-- `tensorlake.documentai.parse.ModelProvider`. -/
inductive ModelProvider where
  | TENSORLAKE | SONNET | GPT4OMINI
deriving DecidableEq

/-- `tensorlake.documentai.parse.FormDetectionMode`. -/
inductive FormDetectionMode where
  | OBJECT_DETECTION | VLM
deriving DecidableEq

/-- The Python value passed as `extraction_schema`
(`Union[Type[BaseModel], dict, str]`; `None` is `Option.none` around it):
a pydantic model class (identified by its name), a mapping (a list of
key/value pairs, values modelled as strings), or a string. -/
inductive SchemaInput where
  | modelClass (name : String)
  | dict (entries : List (String × String))
  | str (s : String)
deriving DecidableEq

/-- Python truthiness of a possible schema value: `None` and empty
string are falsy, a class is truthy, a dict is truthy iff non-empty. -/
def schemaTruthy : Option SchemaInput → Bool
  | Option.none => false
  | some (SchemaInput.modelClass _) => true
  | some (SchemaInput.dict d) => d ≠ []
  | some (SchemaInput.str s) => s ≠ ""

/-- Deterministic model of `json.dumps` on a flat string-valued mapping:
`json.dumps({"name": "string"})` is the text `{"name": "string"}`
(braces written `\x7b`/`\x7d`). -/
def jsonDumps (d : List (String × String)) : String :=
  "\x7b" ++ String.intercalate ", "
      (d.map (fun p => "\"" ++ p.1 ++ "\": \"" ++ p.2 ++ "\"")) ++ "\x7d"

/-- Lines 228-231: `schema = extraction_schema; if isinstance(schema, dict):
schema = json.dumps(schema)`. -/
def normalizeSchema : Option SchemaInput → Option SchemaInput
  | some (SchemaInput.dict d) => some (SchemaInput.str (jsonDumps d))
  | s => s

/-- A Python exception (`NameError` is the one raised by the undefined
name `deliver_webhook`; `exc` stands for any other `Exception` raised by
a collaborator).  `msg` is Python's `str(e)`. -/
inductive PyErr where
  | nameError (msg : String)
  | exc (msg : String)
deriving DecidableEq

/-- Python `str(e)` for a caught exception. -/
def PyErr.msg : PyErr → String
  | PyErr.nameError m => m
  | PyErr.exc m => m

/-- A record returned by `doc_ai.get_job(job_id)`.  `content`/`markdown`
are `none` when the attribute is absent (`hasattr` false); `render` is
Python's `str(result)`. -/
structure JobResult where
  status : String
  content : Option String
  markdown : Option String
  render : String
deriving DecidableEq

/-- One observable interaction with the collaborator or the clock. -/
inductive Call where
  | upload (path : String)
  | parse (fileId : String)
  | getJob (jobId : String)
  | sleep (n : Nat)
deriving DecidableEq

/-- The remote collaborator's behaviour, one entry per operation the
adapter can invoke.  `getJob` is indexed by the poll number so a status
sequence can evolve over time; each operation may raise. -/
structure Behavior where
  upload : String → Except PyErr String
  parse : String → Except PyErr String
  getJob : Nat → Except PyErr JobResult

/-- `tensorlake.documentai.parse.ExtractionOptions` as constructed at
lines 233-238 / 240-243 (only the keyword arguments the adapter passes). -/
structure ExtractionOptions where
  schema : Option SchemaInput
  prompt : Option String
  provider : ModelProvider
  skip_ocr : Bool
deriving DecidableEq

/-- The keyword arguments of `document_to_markdown_converter`
(lines 166-184), with the Python defaults. -/
structure Config where
  chunking_strategy : Option ChunkingStrategy := some ChunkingStrategy.PAGE
  table_parsing_strategy : TableParsingStrategy := TableParsingStrategy.VLM
  table_output_mode : TableOutputMode := TableOutputMode.MARKDOWN
  table_parsing_prompt : Option String := Option.none
  table_summary : Bool := false
  figure_summary : Bool := false
  figure_summarization_prompt : Option String := Option.none
  page_range : Option String := Option.none
  skew_correction : Bool := false
  disable_layout_detection : Bool := false
  detect_signature : Bool := false
  form_detection_mode : FormDetectionMode := FormDetectionMode.OBJECT_DETECTION
  extraction_schema : Option SchemaInput := Option.none
  extraction_prompt : Option String := Option.none
  extraction_model_provider : ModelProvider := ModelProvider.TENSORLAKE
  skip_ocr : Bool := false
  timeout_seconds : Int := 300

/-- `tensorlake.documentai.ParsingOptions` (the fields the adapter passes
at lines 211-225, plus the `extraction_options` attribute assigned at
lines 233/240). -/
structure ParsingOptions where
  chunking_strategy : Option ChunkingStrategy
  table_parsing_strategy : TableParsingStrategy
  table_output_mode : TableOutputMode
  table_parsing_prompt : Option String
  table_summary : Bool
  figure_summary : Bool
  figure_summarization_prompt : Option String
  page_range : Option String
  skew_correction : Bool
  disable_layout_detection : Bool
  detect_signature : Bool
  form_detection_mode : FormDetectionMode
  deliver_webhook : Bool
  extraction_options : Option ExtractionOptions := Option.none

/-- The `ParsingOptions(...)` call at lines 211-225.  Its last keyword
argument is `deliver_webhook=deliver_webhook`, and the name
`deliver_webhook` is defined nowhere in the module, so evaluating the
constructor's arguments raises `NameError` before the object is built. -/
def mkParsingOptions (_cfg : Config) : Except PyErr ParsingOptions :=
  Except.error (PyErr.nameError "name \x27deliver_webhook\x27 is not defined")

/-- Lines 227-243: the value `parsing_options.extraction_options` holds
after the conditional attachment (its `ParsingOptions` default being
`None`): serialize a dict schema, then attach an `ExtractionOptions`
bundle if the (normalized) schema is truthy, else if `skip_ocr` is set,
else leave it absent. -/
def extractionOptionsFor (cfg : Config) : Option ExtractionOptions :=
  let schema := normalizeSchema cfg.extraction_schema
  if schemaTruthy schema then
    some { schema := schema
           prompt := cfg.extraction_prompt
           provider := cfg.extraction_model_provider
           skip_ocr := cfg.skip_ocr }
  else if cfg.skip_ocr then
    some { schema := Option.none
           prompt := Option.none
           provider := cfg.extraction_model_provider
           skip_ocr := cfg.skip_ocr }
  else Option.none

/-- Lines 257-264: the value returned on `status == "successful"`:
`result.content` if present and truthy, else `result.markdown` if
present and truthy, else `str(result)`. -/
def successPayload (r : JobResult) : String :=
  if r.content.getD "" ≠ "" then r.content.getD ""
  else if r.markdown.getD "" ≠ "" then r.markdown.getD ""
  else r.render

/-- The polling loop, lines 252-269.  `elapsed` is the idealised
`time.time() - start_time` (5 per sleep executed so far), `polls` the
number of `get_job` calls made so far.  Returns the value the loop
produces — `.error` if a `get_job` call raised (propagating to the outer
handler) — together with the trace of calls the loop itself makes. -/
def pollJob (b : Behavior) (jobId : String) (timeout : Int)
    (elapsed : Nat) (polls : Nat) : Except PyErr String × List Call :=
  if _h : (elapsed : Int) < timeout then
    match b.getJob polls with
    | Except.error e => (Except.error e, [Call.getJob jobId])
    | Except.ok r =>
      if r.status = "pending" ∨ r.status = "processing" then
        let rest := pollJob b jobId timeout (elapsed + 5) (polls + 1)
        (rest.1, Call.getJob jobId :: Call.sleep 5 :: rest.2)
      else if r.status = "successful" then
        (Except.ok (successPayload r), [Call.getJob jobId])
      else
        (Except.ok ("Document parsing failed with status: " ++ r.status),
         [Call.getJob jobId])
  else
    (Except.ok ("Document processing timeout after " ++ toString timeout ++
        " seconds. Job ID: " ++ jobId), [])
termination_by (timeout - (elapsed : Int)).toNat
decreasing_by
  simp_wf
  omega

/-- The body of the `try` block, lines 203-269: upload, build
`ParsingOptions` (which raises `NameError` while evaluating its
arguments), attach extraction options, submit the job and poll.
`DocumentAI(api_key=...)` at line 205 only stores the credential and is
not modelled as a collaborator call.  Result is `.error e` exactly when
the Python block raises `e`. -/
def convertBody (b : Behavior) (path : String) (cfg : Config) :
    Except PyErr String × List Call :=
  match b.upload path with
  | Except.error e => (Except.error e, [Call.upload path])
  | Except.ok fileId =>
    match mkParsingOptions cfg with
    | Except.error e => (Except.error e, [Call.upload path])
    | Except.ok popts =>
      let _popts := { popts with extraction_options := extractionOptionsFor cfg }
      match b.parse fileId with
      | Except.error e => (Except.error e, [Call.upload path, Call.parse fileId])
      | Except.ok jobId =>
        let res := pollJob b jobId cfg.timeout_seconds 0 0
        (res.1, Call.upload path :: Call.parse fileId :: res.2)

/-- Python truthiness of the module-level `TENSORLAKE_API_KEY`
(`os.getenv` gives `None` or a string; `if not TENSORLAKE_API_KEY`
treats `None` and `""` as absent). -/
def keyTruthy : Option String → Bool
  | Option.none => false
  | some s => s ≠ ""

/-- `document_to_markdown_converter`, lines 166-272.  The result is
`.ok s` when the Python function returns the string `s`, `.error e` when
an exception would escape to the caller; the second component is the
trace of collaborator calls and sleeps. -/
def document_to_markdown_converter (apiKey : Option String) (b : Behavior)
    (path : String) (cfg : Config) : Except PyErr String × List Call :=
  if keyTruthy apiKey = false then
    (Except.ok "Error: TENSORLAKE_API_KEY environment variable is not set", [])
  else
    match convertBody b path cfg with
    | (Except.ok s, tr) => (Except.ok s, tr)
    | (Except.error e, tr) =>
      (Except.ok ("Error processing document: " ++ PyErr.msg e), tr)

/-- `asyncio.to_thread(f, path, **kwargs)` awaited: runs the blocking
function on a worker thread and returns its result; with a deterministic
collaborator this is just application. -/
def asyncio_to_thread {α : Type} (f : String → Config → α)
    (path : String) (cfg : Config) : α :=
  f path cfg

/-- `document_to_markdown_converter_async`, lines 275-277. -/
def document_to_markdown_converter_async (apiKey : Option String) (b : Behavior)
    (path : String) (cfg : Config) : Except PyErr String × List Call :=
  asyncio_to_thread (document_to_markdown_converter apiKey b) path cfg

/-- `pat` occurs as a substring of `s`. -/
def ContainsStr (s pat : String) : Prop :=
  ∃ a c, s = a ++ pat ++ c

/-- The spec's side condition, following its words: the extraction schema
is "non-empty" — absent and empty values (`None`, an empty mapping, `""`)
are empty; a schema class, a non-empty mapping, or a non-empty string is
non-empty. -/
def specSchemaNonEmpty : Option SchemaInput → Bool
  | Option.none => false
  | some (SchemaInput.modelClass _) => true
  | some (SchemaInput.dict d) => d ≠ []
  | some (SchemaInput.str s) => s ≠ ""

/-- C1: with the API credential present, every invocation returns a string
beginning "Error processing document:" (evaluating the `ParsingOptions`
arguments raises `NameError` over the undefined name `deliver_webhook`,
caught by the enclosing handler — or, if the upload raised first, that
exception is caught instead), and the trace holds only the upload call:
`doc_ai.parse` and `doc_ai.get_job` are never reached, so no success
payload can be returned. -/
theorem converter_always_returns_error_text (apiKey : Option String)
    (b : Behavior) (path : String) (cfg : Config)
    (h : keyTruthy apiKey = true) :
    (∃ rest, (document_to_markdown_converter apiKey b path cfg).1 =
        Except.ok ("Error processing document:" ++ rest)) ∧
    (document_to_markdown_converter apiKey b path cfg).2 = [Call.upload path] := by
  unfold document_to_markdown_converter convertBody mkParsingOptions
  rw [h]
  rw [if_neg (by decide)]
  cases hu : b.upload path with
  | error e =>
    refine ⟨⟨" " ++ e.msg, ?_⟩, ?_⟩
    · simp only [hu]
      rw [← String.append_assoc]
      congr 1
    · simp [hu]
  | ok fid =>
    refine ⟨⟨" name \x27deliver_webhook\x27 is not defined", ?_⟩, ?_⟩
    · simp only [hu]
      decide
    · simp [hu]

/-- C1 witness: a concrete invocation with the credential present and a
fully succeeding collaborator. -/
theorem converter_always_returns_error_text_witness :
    keyTruthy (some "tl-key") = true ∧
    ((∃ rest, (document_to_markdown_converter (some "tl-key")
        ⟨fun _ => Except.ok "file-abc", fun _ => Except.ok "job-1",
         fun _ => Except.ok ⟨"successful", some "md", Option.none, "r"⟩⟩
        "invoice.pdf" {}).1 = Except.ok ("Error processing document:" ++ rest)) ∧
      (document_to_markdown_converter (some "tl-key")
        ⟨fun _ => Except.ok "file-abc", fun _ => Except.ok "job-1",
         fun _ => Except.ok ⟨"successful", some "md", Option.none, "r"⟩⟩
        "invoice.pdf" {}).2 = [Call.upload "invoice.pdf"]) :=
  ⟨by decide, converter_always_returns_error_text (some "tl-key") _ _ _ (by decide)⟩

/-- C2 counterexample: an HTTPS locator with a succeeding collaborator.
The adapter still performs the upload call, passing the URL itself, and
job submission is never reached — the trace is exactly the one upload
call — refuting "no upload call occurs and the locator is forwarded
verbatim to job submission". -/
theorem url_locator_still_uploaded_cex :
    (document_to_markdown_converter (some "tl-key")
        ⟨fun _ => Except.ok "file-abc", fun _ => Except.ok "job-1",
         fun _ => Except.ok ⟨"successful", some "md", Option.none, "r"⟩⟩
        "https://example.com/doc.pdf" {}).2
      = [Call.upload "https://example.com/doc.pdf"] := by decide

/-- C2 amended: for every locator — HTTP(S) URL or not — with the
credential present, the adapter performs exactly one upload call, passing
the locator unchanged; the job-submission call is never made (evaluation
fails at the `ParsingOptions` construction first), so nothing is ever
forwarded to job submission. -/
theorem upload_called_once_parse_never (apiKey : Option String) (b : Behavior)
    (path : String) (cfg : Config) (h : keyTruthy apiKey = true) :
    (document_to_markdown_converter apiKey b path cfg).2 = [Call.upload path] :=
  (converter_always_returns_error_text apiKey b path cfg h).2

/-- C2 amended witness at a concrete URL locator. -/
theorem upload_called_once_parse_never_witness :
    keyTruthy (some "tl-key") = true ∧
    (document_to_markdown_converter (some "tl-key")
        ⟨fun _ => Except.ok "file-abc", fun _ => Except.ok "job-1",
         fun _ => Except.ok ⟨"successful", some "md", Option.none, "r"⟩⟩
        "https://example.com/sub/report.pdf" {}).2
      = [Call.upload "https://example.com/sub/report.pdf"] :=
  ⟨by decide, upload_called_once_parse_never (some "tl-key") _ _ _ (by decide)⟩

/-- C3: for every input and every collaborator behaviour — including any
exception raised by upload, job submission, or status query — the
synchronous entry point returns a string and never propagates an
exception (`Except.error`) to its caller. -/
theorem converter_never_raises (apiKey : Option String) (b : Behavior)
    (path : String) (cfg : Config) :
    ∃ s, (document_to_markdown_converter apiKey b path cfg).1 = Except.ok s := by
  unfold document_to_markdown_converter
  by_cases hk : keyTruthy apiKey = false
  · rw [if_pos hk]
    exact ⟨_, rfl⟩
  · rw [if_neg hk]
    rcases hb : convertBody b path cfg with ⟨res, tr⟩
    cases res with
    | error e => simp [hb]
    | ok s => simp [hb]

/-- C5: with the credential absent (unset or empty), the adapter returns
an error string containing "TENSORLAKE_API_KEY" and makes no collaborator
call at all (empty trace). -/
theorem missing_key_short_circuits (apiKey : Option String) (b : Behavior)
    (path : String) (cfg : Config) (h : keyTruthy apiKey = false) :
    document_to_markdown_converter apiKey b path cfg =
      (Except.ok "Error: TENSORLAKE_API_KEY environment variable is not set", []) ∧
    ContainsStr "Error: TENSORLAKE_API_KEY environment variable is not set"
      "TENSORLAKE_API_KEY" := by
  refine ⟨?_, ⟨"Error: ", " environment variable is not set", by decide⟩⟩
  unfold document_to_markdown_converter
  rw [if_pos h]

/-- C5 witness: credential unset, a collaborator that would succeed. -/
theorem missing_key_short_circuits_witness :
    keyTruthy Option.none = false ∧
    document_to_markdown_converter Option.none
      ⟨fun _ => Except.ok "file-abc", fun _ => Except.ok "job-1",
       fun _ => Except.ok ⟨"successful", some "md", Option.none, "r"⟩⟩
      "invoice.pdf" {} =
      (Except.ok "Error: TENSORLAKE_API_KEY environment variable is not set", []) :=
  ⟨by decide, (missing_key_short_circuits Option.none _ _ {} (by decide)).1⟩

/-- C10: the asynchronous entry point merely offloads the same blocking
call (`asyncio.to_thread`) and awaits it, so on identical inputs against
a deterministic collaborator it returns exactly what the synchronous
entry point returns. -/
theorem async_equals_sync (apiKey : Option String) (b : Behavior)
    (path : String) (cfg : Config) :
    document_to_markdown_converter_async apiKey b path cfg =
      document_to_markdown_converter apiKey b path cfg := rfl

/-- `json.dumps` of a mapping is never the empty string. -/
theorem jsonDumps_ne_empty (d : List (String × String)) : jsonDumps d ≠ "" := by
  intro hcon
  have hlen := congrArg String.length hcon
  simp [jsonDumps, String.length_append] at hlen
  exact absurd hlen.1.1 (by decide)

/-- C4 counterexample: with the extraction schema given as the empty
mapping and skip-OCR false, the claim says the bundle is absent, but the
code serializes the mapping first (to the non-empty, truthy string of an
empty JSON object) and attaches one. -/
theorem extraction_attached_for_empty_dict_cex :
    (extractionOptionsFor { extraction_schema := some (SchemaInput.dict []) }).isSome
      = true ∧
    specSchemaNonEmpty (some (SchemaInput.dict [])) = false ∧
    ({ extraction_schema := some (SchemaInput.dict []) } : Config).skip_ocr = false := by
  decide

/-- C4 amended: the extraction bundle is attached iff the schema is a
schema class, *any* mapping (an empty mapping serializes to a non-empty
string and still triggers attachment), or a non-empty string, or the
skip-OCR flag is true; a mapping schema is serialized to its JSON string
before inclusion. -/
theorem extraction_attachment_iff (cfg : Config) :
    ((extractionOptionsFor cfg).isSome = true ↔
      ((∃ n, cfg.extraction_schema = some (SchemaInput.modelClass n)) ∨
       (∃ d, cfg.extraction_schema = some (SchemaInput.dict d)) ∨
       (∃ s, cfg.extraction_schema = some (SchemaInput.str s) ∧ s ≠ "") ∨
       cfg.skip_ocr = true)) ∧
    (∀ d, cfg.extraction_schema = some (SchemaInput.dict d) →
      ∃ eo, extractionOptionsFor cfg = some eo ∧
        eo.schema = some (SchemaInput.str (jsonDumps d))) := by
  constructor
  · cases hs : cfg.extraction_schema with
    | none =>
      by_cases ho : cfg.skip_ocr <;>
        simp [extractionOptionsFor, normalizeSchema, schemaTruthy, hs, ho]
    | some si =>
      cases si with
      | modelClass n =>
        simp [extractionOptionsFor, normalizeSchema, schemaTruthy, hs]
      | dict d =>
        simp [extractionOptionsFor, normalizeSchema, schemaTruthy, hs,
          jsonDumps_ne_empty d]
      | str s =>
        by_cases hse : s = "" <;>
          by_cases ho : cfg.skip_ocr <;>
            simp [extractionOptionsFor, normalizeSchema, schemaTruthy, hs, hse, ho]
  · intro d hd
    refine ⟨{ schema := some (SchemaInput.str (jsonDumps d))
              prompt := cfg.extraction_prompt
              provider := cfg.extraction_model_provider
              skip_ocr := cfg.skip_ocr }, ?_, rfl⟩
    simp [extractionOptionsFor, normalizeSchema, schemaTruthy, hd,
      jsonDumps_ne_empty d]

/-- C4 amended witness: a one-entry mapping schema triggers attachment. -/
theorem extraction_attachment_iff_witness :
    (extractionOptionsFor
      { extraction_schema := some (SchemaInput.dict [("name", "string")]) }).isSome
      = true :=
  (extraction_attachment_iff _).1.mpr (Or.inr (Or.inl ⟨_, rfl⟩))

/-- One loop iteration on a non-terminal status: sleep 5 and poll again. -/
theorem pollJob_step_nonterminal (b : Behavior) (jobId : String) (timeout : Int)
    (elapsed polls : Nat) (r : JobResult) (hguard : (elapsed : Int) < timeout)
    (hjob : b.getJob polls = Except.ok r)
    (hs : r.status = "pending" ∨ r.status = "processing") :
    pollJob b jobId timeout elapsed polls =
      ((pollJob b jobId timeout (elapsed + 5) (polls + 1)).1,
       Call.getJob jobId :: Call.sleep 5 ::
         (pollJob b jobId timeout (elapsed + 5) (polls + 1)).2) := by
  rw [pollJob.eq_def, dif_pos hguard]
  simp only [hjob]
  rw [if_pos hs]

/-- One loop iteration on a "successful" status: return the payload. -/
theorem pollJob_step_success (b : Behavior) (jobId : String) (timeout : Int)
    (elapsed polls : Nat) (r : JobResult) (hguard : (elapsed : Int) < timeout)
    (hjob : b.getJob polls = Except.ok r) (hs : r.status = "successful") :
    pollJob b jobId timeout elapsed polls =
      (Except.ok (successPayload r), [Call.getJob jobId]) := by
  rw [pollJob.eq_def, dif_pos hguard]
  simp only [hjob]
  rw [if_neg (by rw [hs]; decide), if_pos hs]

/-- One loop iteration on any other status: return the failure string. -/
theorem pollJob_step_other (b : Behavior) (jobId : String) (timeout : Int)
    (elapsed polls : Nat) (r : JobResult) (hguard : (elapsed : Int) < timeout)
    (hjob : b.getJob polls = Except.ok r) (h1 : r.status ≠ "pending")
    (h2 : r.status ≠ "processing") (h3 : r.status ≠ "successful") :
    pollJob b jobId timeout elapsed polls =
      (Except.ok ("Document parsing failed with status: " ++ r.status),
       [Call.getJob jobId]) := by
  rw [pollJob.eq_def, dif_pos hguard]
  simp only [hjob]
  rw [if_neg (by simp [h1, h2]), if_neg h3]

/-- Elapsed time at or past the timeout: return the timeout string. -/
theorem pollJob_step_timeout (b : Behavior) (jobId : String) (timeout : Int)
    (elapsed polls : Nat) (hguard : ¬ ((elapsed : Int) < timeout)) :
    pollJob b jobId timeout elapsed polls =
      (Except.ok ("Document processing timeout after " ++ toString timeout ++
        " seconds. Job ID: " ++ jobId), []) := by
  rw [pollJob.eq_def, dif_neg hguard]

/-- C6: on a terminal-success status the poller returns the content field
if present and non-empty, else the markdown field if present and
non-empty, else the full string rendering — never an error — after the
single status query. -/
theorem poll_success_payload_selection (b : Behavior) (jobId : String)
    (timeout : Int) (elapsed polls : Nat) (r : JobResult)
    (hguard : (elapsed : Int) < timeout)
    (hjob : b.getJob polls = Except.ok r) (hstat : r.status = "successful") :
    (∀ c, r.content = some c → c ≠ "" →
        pollJob b jobId timeout elapsed polls = (Except.ok c, [Call.getJob jobId])) ∧
    ((r.content = Option.none ∨ r.content = some "") →
      ∀ m, r.markdown = some m → m ≠ "" →
        pollJob b jobId timeout elapsed polls = (Except.ok m, [Call.getJob jobId])) ∧
    ((r.content = Option.none ∨ r.content = some "") →
      (r.markdown = Option.none ∨ r.markdown = some "") →
        pollJob b jobId timeout elapsed polls =
          (Except.ok r.render, [Call.getJob jobId])) ∧
    (∃ s, (pollJob b jobId timeout elapsed polls).1 = Except.ok s) := by
  have hpoll := pollJob_step_success b jobId timeout elapsed polls r hguard hjob hstat
  refine ⟨?_, ?_, ?_, ⟨_, by rw [hpoll]⟩⟩
  · intro c hc hcne
    rw [hpoll]
    simp [successPayload, hc, hcne]
  · rintro (hc | hc) m hm hmne <;> rw [hpoll] <;>
      simp [successPayload, hc, hm, hmne]
  · rintro (hc | hc) (hm | hm) <;> rw [hpoll] <;>
      simp [successPayload, hc, hm]

/-- C6 witness: markdown returned when content is absent. -/
theorem poll_success_payload_selection_witness :
    ((0 : Nat) : Int) < 300 ∧
    pollJob ⟨fun _ => Except.ok "f", fun _ => Except.ok "j",
        fun _ => Except.ok ⟨"successful", Option.none, some "MD", "render"⟩⟩
      "job-7" 300 0 0 = (Except.ok "MD", [Call.getJob "job-7"]) :=
  ⟨by decide,
   (poll_success_payload_selection _ "job-7" 300 0 0 _ (by decide) rfl rfl).2.1
     (Or.inl rfl) "MD" rfl (by decide)⟩

/-- C7: statuses pending, processing, successful (with a non-empty
content payload) — the loop returns the payload after exactly two
5-unit sleeps, one after each non-terminal observation. -/
theorem poll_two_sleeps_then_success (b : Behavior) (jobId : String)
    (timeout : Int) (r0 r1 r2 : JobResult) (p : String)
    (h0 : b.getJob 0 = Except.ok r0) (h0s : r0.status = "pending")
    (h1 : b.getJob 1 = Except.ok r1) (h1s : r1.status = "processing")
    (h2 : b.getJob 2 = Except.ok r2) (h2s : r2.status = "successful")
    (hp : r2.content = some p) (hpne : p ≠ "") (ht : (10 : Int) < timeout) :
    pollJob b jobId timeout 0 0 =
      (Except.ok p, [Call.getJob jobId, Call.sleep 5, Call.getJob jobId,
        Call.sleep 5, Call.getJob jobId]) := by
  have e2 : pollJob b jobId timeout 10 2 = (Except.ok p, [Call.getJob jobId]) := by
    rw [pollJob_step_success b jobId timeout 10 2 r2 (by omega) h2 h2s]
    simp [successPayload, hp, hpne]
  have e1 : pollJob b jobId timeout 5 1 =
      (Except.ok p, [Call.getJob jobId, Call.sleep 5, Call.getJob jobId]) := by
    rw [pollJob_step_nonterminal b jobId timeout 5 1 r1 (by omega) h1 (Or.inr h1s)]
    norm_num [e2]
  rw [pollJob_step_nonterminal b jobId timeout 0 0 r0 (by omega) h0 (Or.inl h0s)]
  norm_num [e1]

/-- C7 witness. -/
theorem poll_two_sleeps_then_success_witness :
    pollJob ⟨fun _ => Except.ok "f", fun _ => Except.ok "j",
        fun n => if n = 0 then Except.ok ⟨"pending", Option.none, Option.none, "r0"⟩
          else if n = 1 then Except.ok ⟨"processing", Option.none, Option.none, "r1"⟩
          else Except.ok ⟨"successful", some "PAYLOAD", Option.none, "r2"⟩⟩
      "job-9" 300 0 0 =
      (Except.ok "PAYLOAD", [Call.getJob "job-9", Call.sleep 5, Call.getJob "job-9",
        Call.sleep 5, Call.getJob "job-9"]) :=
  poll_two_sleeps_then_success _ "job-9" 300 _ _ _ "PAYLOAD"
    rfl rfl rfl rfl rfl rfl rfl (by decide) (by decide)

/-- C8: a status that is neither non-terminal nor "successful" on the
first poll returns immediately — one status query, no sleep — with an
error string that embeds the observed status. -/
theorem poll_failure_immediate_return (b : Behavior) (jobId : String)
    (timeout : Int) (r : JobResult) (h0 : b.getJob 0 = Except.ok r)
    (h1 : r.status ≠ "pending") (h2 : r.status ≠ "processing")
    (h3 : r.status ≠ "successful") (ht : (0 : Int) < timeout) :
    pollJob b jobId timeout 0 0 =
      (Except.ok ("Document parsing failed with status: " ++ r.status),
       [Call.getJob jobId]) ∧
    ContainsStr ("Document parsing failed with status: " ++ r.status) r.status := by
  refine ⟨pollJob_step_other b jobId timeout 0 0 r ht h0 h1 h2 h3,
    ⟨"Document parsing failed with status: ", "", ?_⟩⟩
  simp

/-- C8 witness: a FAILED status on the first poll. -/
theorem poll_failure_immediate_return_witness :
    pollJob ⟨fun _ => Except.ok "f", fun _ => Except.ok "j",
        fun _ => Except.ok ⟨"failed", Option.none, Option.none, "r"⟩⟩
      "job-3" 300 0 0 =
      (Except.ok "Document parsing failed with status: failed",
       [Call.getJob "job-3"]) :=
  (poll_failure_immediate_return _ "job-3" 300
    ⟨"failed", Option.none, Option.none, "r"⟩ rfl (by decide) (by decide)
    (by decide) (by decide)).1

/-- If every status query answers with a non-terminal status, the loop
always ends in the timeout message. -/
theorem pollJob_nonterminal_times_out (b : Behavior) (jobId : String)
    (timeout : Int)
    (hb : ∀ n, ∃ r, b.getJob n = Except.ok r ∧
      (r.status = "pending" ∨ r.status = "processing")) :
    ∀ elapsed polls, (pollJob b jobId timeout elapsed polls).1 =
      Except.ok ("Document processing timeout after " ++ toString timeout ++
        " seconds. Job ID: " ++ jobId) := by
  intro elapsed polls
  induction elapsed, polls using pollJob.induct b jobId timeout with
  | case1 elapsed polls hguard e he =>
    obtain ⟨r, hr, _⟩ := hb polls
    rw [hr] at he
    exact absurd he (by simp)
  | case2 elapsed polls hguard r hr hs ih =>
    rw [pollJob_step_nonterminal b jobId timeout elapsed polls r hguard hr hs]
    exact ih
  | case3 elapsed polls hguard r hr hns _ =>
    obtain ⟨r2, hr2, hs2⟩ := hb polls
    rw [hr2] at hr
    cases hr
    exact absurd hs2 hns
  | case4 elapsed polls hguard r hr hns _ =>
    obtain ⟨r2, hr2, hs2⟩ := hb polls
    rw [hr2] at hr
    cases hr
    exact absurd hs2 hns
  | case5 elapsed polls hguard =>
    rw [pollJob_step_timeout b jobId timeout elapsed polls hguard]

/-- C9: when no terminal state is ever reported, the poller stops without
throwing and returns a timeout string containing both the job identifier
and the configured timeout value. -/
theorem poll_timeout_returns_message (b : Behavior) (jobId : String)
    (timeout : Int)
    (hb : ∀ n, ∃ r, b.getJob n = Except.ok r ∧
      (r.status = "pending" ∨ r.status = "processing")) :
    (pollJob b jobId timeout 0 0).1 =
      Except.ok ("Document processing timeout after " ++ toString timeout ++
        " seconds. Job ID: " ++ jobId) ∧
    ContainsStr ("Document processing timeout after " ++ toString timeout ++
        " seconds. Job ID: " ++ jobId) jobId ∧
    ContainsStr ("Document processing timeout after " ++ toString timeout ++
        " seconds. Job ID: " ++ jobId) (toString timeout) := by
  refine ⟨pollJob_nonterminal_times_out b jobId timeout hb 0 0,
    ⟨"Document processing timeout after " ++ toString timeout ++
      " seconds. Job ID: ", "", ?_⟩,
    ⟨"Document processing timeout after ", " seconds. Job ID: " ++ jobId, ?_⟩⟩
  · simp [String.append_assoc]
  · simp [String.append_assoc]

/-- C9 witness: a collaborator stuck in "processing" with a 1-second
timeout. -/
theorem poll_timeout_returns_message_witness :
    (pollJob ⟨fun _ => Except.ok "f", fun _ => Except.ok "j",
        fun _ => Except.ok ⟨"processing", Option.none, Option.none, "r"⟩⟩
      "job-42" 1 0 0).1 =
      Except.ok "Document processing timeout after 1 seconds. Job ID: job-42" :=
  (poll_timeout_returns_message _ "job-42" 1
    (fun _ => ⟨_, rfl, Or.inr rfl⟩)).1

end Tensorlake
